import Mathlib

/-!
Shallow embedding of the NHL goal ingestion and ranking pipeline
(`app/nhl_scraper_cron.py`, `app/scraper_on_demand.py`, `app/s3_storage.py`).

Conventions used throughout:
* Python dict fields read with `.get(key, default)` are modelled as total
  structure fields; an absent key corresponds to the default value.  Fields
  read with `.get(key)` (default `None`) are modelled as `Option`.
* Python `set` values are modelled as `Finset String`.
* Machine integers are modelled as `Int` (scores can go negative through the
  `score - 1` computations, so `Nat` would be unfaithful).
* Code that can raise an exception is modelled with `Option`/`Except`;
  a `none`/`.error` result stands for the raised exception.
* I/O (HTTP fetches, S3 reads and writes, GetStream publishes) is modelled
  by passing the fetched data or the outcome of the call as an explicit
  input to the function that performs it.
-/

namespace StreamBackend

/-! ## Data model: schedule games and plays -/

/-- A team record as it appears in the schedule API (`homeTeam`/`awayTeam`):
only the `id` and `abbrev` fields are read by the classifier. -/
structure Team where
  id : Nat
  abbr : String  -- the `abbrev` dict key (renamed: `abbrev` is a Lean keyword)
deriving DecidableEq

/-- The `details` sub-dictionary of a goal play.  `homeScore` and `awayScore`
are read with default `0`; `eventOwnerTeamId` is compared against team ids. -/
structure PlayDetails where
  homeScore : Int
  awayScore : Int
  eventOwnerTeamId : Nat
deriving DecidableEq

/-- A goal play from the play-by-play stream: the fields of `play` read by
`calculate_game_winner`. -/
structure Play where
  eventId : Nat
  details : PlayDetails
deriving DecidableEq

/-- A game record from the schedule API, as read by `calculate_game_winner`. -/
structure Game where
  id : Nat
  homeTeam : Team
  awayTeam : Team
deriving DecidableEq

/-! ## Game-winner classifier (`NHLScraperCron.calculate_game_winner`) -/

/-- The composite goal id `f"{game['id']}_{play.get('eventId')}"`. -/
def goalId (game : Game) (p : Play) : String :=
  toString game.id ++ "_" ++ toString p.eventId

/-- `scoring_team = home_team['abbrev'] if details['eventOwnerTeamId'] ==
home_team['id'] else away_team['abbrev']`. -/
def scoringTeamAbbrev (game : Game) (d : PlayDetails) : String :=
  if d.eventOwnerTeamId = game.homeTeam.id then game.homeTeam.abbr
  else game.awayTeam.abbr

/-- `prev_home_score = home_score - 1 if scoring_team == home_team['abbrev']
else home_score`. -/
def prevHomeScore (game : Game) (d : PlayDetails) : Int :=
  if scoringTeamAbbrev game d = game.homeTeam.abbr then d.homeScore - 1
  else d.homeScore

/-- `prev_away_score = away_score - 1 if scoring_team == away_team['abbrev']
else away_score`. -/
def prevAwayScore (game : Game) (d : PlayDetails) : Int :=
  if scoringTeamAbbrev game d = game.awayTeam.abbr then d.awayScore - 1
  else d.awayScore

/-- The `took_lead` test of `calculate_game_winner`: branches on whether the
scoring team is the home team, exactly as the source does. -/
def tookLead (game : Game) (d : PlayDetails) : Bool :=
  if scoringTeamAbbrev game d = game.homeTeam.abbr then
    decide (prevHomeScore game d ≤ prevAwayScore game d ∧ d.homeScore > d.awayScore)
  else
    decide (prevAwayScore game d ≤ prevHomeScore game d ∧ d.awayScore > d.homeScore)

/-- The `was_already_ahead` test of `calculate_game_winner`. -/
def wasAlreadyAhead (game : Game) (d : PlayDetails) : Bool :=
  if scoringTeamAbbrev game d = game.homeTeam.abbr then
    decide (prevHomeScore game d > prevAwayScore game d)
  else
    decide (prevAwayScore game d > prevHomeScore game d)

/-- One iteration of the chronological walk in `calculate_game_winner`.
The accumulator is `(last_lead_change_goal, piling_on_ids)`; the Python
`set` of piling-on ids is modelled as the list of ids added to it. -/
def gwStep (game : Game) (winningTeam : String)
    (acc : Option String × List String) (p : Play) : Option String × List String :=
  let d := p.details
  let gid := goalId game p
  if scoringTeamAbbrev game d = winningTeam then
    if tookLead game d then
      (some gid, acc.2)
    else if acc.1.isSome then
      if wasAlreadyAhead game d then (acc.1, acc.2 ++ [gid]) else acc
    else
      acc
  else
    acc

/-- `NHLScraperCron.calculate_game_winner`: returns
`(game_winner_id, piling_on_ids)`.  The final score is taken from the last
goal's `details`; the winning team is the home team exactly when
`final_home_score > final_away_score` (otherwise the away team, including
ties). -/
def calculate_game_winner (goals : List Play) (game : Game) :
    Option String × List String :=
  match goals with
  | [] => (none, [])
  | g :: gs =>
    let lastd := (List.getLast (g :: gs) (List.cons_ne_nil g gs)).details
    let winningTeam :=
      if lastd.homeScore > lastd.awayScore then game.homeTeam.abbr
      else game.awayTeam.abbr
    (g :: gs).foldl (gwStep game winningTeam) (none, [])

/-! ## Importance scorer (`NHLScraperCron.calculate_goal_importance`) -/

/-- The `importance_context` dictionary built in
`convert_goal_to_collection_and_activity` and consumed by
`calculate_goal_importance`.  Fields read with `context.get(k)` (no default)
are `Option`s; fields read with an explicit default are total. -/
structure ImportanceContext where
  isGameWinner : Bool
  period : Int
  periodType : Option String
  goalModifier : Option String
  strength : Option String
  timeRemaining : Option String
  homeScore : Int
  awayScore : Int
  prevHomeScore : Int
  prevAwayScore : Int
  scoringTeam : Option String
  homeTeam : Option String
deriving DecidableEq

/-- Decimal-digit accumulator for `pyIntChars?`: consumes the characters of
an unsigned integer literal, failing on any non-digit. -/
def digitsToNat (l : List Char) (acc : Nat) : Option Nat :=
  match l with
  | [] => some acc
  | c :: cs =>
    if c.isDigit then digitsToNat cs (acc * 10 + (c.toNat - 48)) else none

/-- Python `int(s)` on the characters of `s`: an optional sign followed by
at least one decimal digit; anything else raises `ValueError` (`none`).
(Python also tolerates surrounding whitespace and underscores between
digits; such strings never reach `parse_time` in this development.) -/
def pyIntChars? (l : List Char) : Option Int :=
  match l with
  | [] => none
  | c :: cs =>
    if c = '-' then
      match cs with
      | [] => none
      | _ :: _ => (digitsToNat cs 0).map (fun n => -(n : Int))
    else if c = '+' then
      match cs with
      | [] => none
      | _ :: _ => (digitsToNat cs 0).map (fun n => (n : Int))
    else
      (digitsToNat (c :: cs) 0).map (fun n => (n : Int))

/-- Python `s.split(':')` on the characters of `s`: splits on every
occurrence of the (single-character) separator, keeping empty parts, and
yields one part even for an empty input. -/
def splitColons (l : List Char) : List (List Char) :=
  match l with
  | [] => [[]]
  | c :: cs =>
    let rest := splitColons cs
    if c = ':' then
      [] :: rest
    else
      match rest with
      | [] => [[c]]
      | h :: t => (c :: h) :: t

/-- The inner `parse_time` helper of `calculate_goal_importance`.
`none` input models a `None` value for `timeRemaining` (falsy, hence `0`),
and an empty string is likewise falsy; a `none` result models the
`ValueError` raised by `int()` on a non-numeric part.  The source computes
`int(parts[0]) * 60 + int(parts[1])`. -/
def parse_time (timeStr : Option String) : Option Int :=
  match timeStr with
  | none => some 0
  | some s =>
    if s.data = [] ∨ ¬ (':' ∈ s.data) then some 0
    else
      let parts := splitColons s.data
      match pyIntChars? (parts.getD 0 []), pyIntChars? (parts.getD 1 []) with
      | some m, some sec => some (m * 60 + sec)
      | _, _ => none

/-- `is_home_goal`-selected score of the scoring team (`home_score` if the
scoring team equals the home team, else `away_score`).  Python compares the
two possibly-`None` values with `==`, which `Option` equality mirrors. -/
def scoringTeamScore (c : ImportanceContext) : Int :=
  if c.scoringTeam = c.homeTeam then c.homeScore else c.awayScore

/-- Opponent score selected by `is_home_goal`. -/
def opponentScore (c : ImportanceContext) : Int :=
  if c.scoringTeam = c.homeTeam then c.awayScore else c.homeScore

/-- Previous score of the scoring team selected by `is_home_goal`. -/
def prevScoringTeamScore (c : ImportanceContext) : Int :=
  if c.scoringTeam = c.homeTeam then c.prevHomeScore else c.prevAwayScore

/-- Previous score of the opponent selected by `is_home_goal`. -/
def prevOpponentScore (c : ImportanceContext) : Int :=
  if c.scoringTeam = c.homeTeam then c.prevAwayScore else c.prevHomeScore

/-- The additive accumulator of `calculate_goal_importance` up to (and
including) the penalty-shot bonus: the code initializes `score = 1` and then
adds each bonus in this order.  The empty-net adjustment and the first-goal
bonus come after this sum in the source and are applied on top of it in
`calculate_goal_importance` below.  `secs` is the parsed
`seconds_remaining`. -/
def importanceRaw (c : ImportanceContext) (secs : Int) : Int :=
  1
  + (if c.isGameWinner = true then 10 else 0)
  + (if prevScoringTeamScore c < prevOpponentScore c ∧
        scoringTeamScore c = opponentScore c then 7 else 0)
  + (if prevScoringTeamScore c ≤ prevOpponentScore c ∧
        scoringTeamScore c > opponentScore c then 6 else 0)
  + (if c.period ≥ 3 ∧ prevScoringTeamScore c - prevOpponentScore c = 1 ∧
        scoringTeamScore c - opponentScore c ≥ 2 then 2 else 0)
  + (if |scoringTeamScore c - opponentScore c| ≤ 1 then 2 else 0)
  + (if secs > 0 ∧ secs ≤ 120 then 3 else 0)
  + (if secs > 0 ∧ secs ≤ 30 then 2 else 0)
  + (if c.period = 3 ∧ c.isGameWinner = false then 1 else 0)
  + (if c.period > 3 ∨ c.periodType = some "OT" then 5 else 0)
  + (if c.periodType = some "SO" then 3 else 0)
  + (if c.strength = some "powerplay" ∨ c.goalModifier = some "power-play" then 1 else 0)
  + (if c.strength = some "shorthanded" ∨ c.goalModifier = some "short-handed" then 4 else 0)
  + (if c.goalModifier = some "penalty-shot" then 3 else 0)

/-- The same accumulator with the two late-period bonuses removed.  This is
the comparison definition needed to state claim C4 ("the late-period signals
add +3 and +2 on top of everything else"); it is not a function of the
source. -/
def importanceRawNoLate (c : ImportanceContext) : Int :=
  1
  + (if c.isGameWinner = true then 10 else 0)
  + (if prevScoringTeamScore c < prevOpponentScore c ∧
        scoringTeamScore c = opponentScore c then 7 else 0)
  + (if prevScoringTeamScore c ≤ prevOpponentScore c ∧
        scoringTeamScore c > opponentScore c then 6 else 0)
  + (if c.period ≥ 3 ∧ prevScoringTeamScore c - prevOpponentScore c = 1 ∧
        scoringTeamScore c - opponentScore c ≥ 2 then 2 else 0)
  + (if |scoringTeamScore c - opponentScore c| ≤ 1 then 2 else 0)
  + (if c.period = 3 ∧ c.isGameWinner = false then 1 else 0)
  + (if c.period > 3 ∨ c.periodType = some "OT" then 5 else 0)
  + (if c.periodType = some "SO" then 3 else 0)
  + (if c.strength = some "powerplay" ∨ c.goalModifier = some "power-play" then 1 else 0)
  + (if c.strength = some "shorthanded" ∨ c.goalModifier = some "short-handed" then 4 else 0)
  + (if c.goalModifier = some "penalty-shot" then 3 else 0)

/-- `NHLScraperCron.calculate_goal_importance`.  After the additive part the
source runs, in order: the empty-net adjustment `score -= 1` followed by the
clamp `if score < 1: score = 1` (that is, `max (score - 1) 1`), and then the
first-goal bonus.  A `none` result models the `ValueError` propagated out of
`parse_time`. -/
def calculate_goal_importance (c : ImportanceContext) : Option Int :=
  (parse_time c.timeRemaining).map (fun secs =>
    let raw := importanceRaw c secs
    let afterEmptyNet :=
      if c.goalModifier = some "empty-net" then max (raw - 1) 1 else raw
    afterEmptyNet +
      (if (c.homeScore = 1 ∧ c.awayScore = 0) ∨
          (c.homeScore = 0 ∧ c.awayScore = 1) then 1 else 0))

/-! ## Publisher (`NHLScraperCron.upload_goals_with_collections`) -/

/-- Leading-match test on character lists: does `hay` start with
`needle`? -/
def startsWithChars (needle hay : List Char) : Bool :=
  match needle, hay with
  | [], _ => true
  | _ :: _, [] => false
  | a :: as, b :: bs => a = b && startsWithChars as bs

/-- Python substring test `needle in s`, on character lists. -/
def containsSubChars (needle hay : List Char) : Bool :=
  match hay with
  | [] => startsWithChars needle []
  | _ :: t => startsWithChars needle hay || containsSubChars needle t

/-- The outcome of the three publish calls (collection upsert plus the two
feed appends) for one goal, as observed by the `try` block: either they all
succeed, or one of them raises an exception with message `msg`. -/
inductive PublishOutcome where
  | ok
  | err (msg : String)
deriving DecidableEq

/-- The duplicate test of the `except` handler:
`'duplicate' in error_msg.lower()`. -/
def isDuplicateMsg (msg : String) : Bool :=
  containsSubChars "duplicate".data (msg.data.map Char.toLower)

/-- The upload statistics dictionary returned by
`upload_goals_with_collections` (`uploaded` / `failed` counters). -/
structure UploadStats where
  uploaded : Nat
  failed : Nat
deriving DecidableEq

/-- One iteration of the upload loop: a successful goal increments
`uploaded`; an exception increments `failed` only when its message does not
contain `'duplicate'` (case-insensitively); duplicates are silently
skipped. -/
def uploadStep (acc : UploadStats) (o : PublishOutcome) : UploadStats :=
  match o with
  | .ok => { acc with uploaded := acc.uploaded + 1 }
  | .err msg =>
    if isDuplicateMsg msg then acc else { acc with failed := acc.failed + 1 }

/-- `NHLScraperCron.upload_goals_with_collections`, as a function of the
per-goal publish outcomes (the goals' contents do not influence the
counters). -/
def upload_goals_with_collections (outcomes : List PublishOutcome) : UploadStats :=
  outcomes.foldl uploadStep { uploaded := 0, failed := 0 }

/-! ## Checkpoint state and `NHLScraperCron.scrape_date_range` -/

/-- The progress record persisted in `scrape_progress.json`, restricted to
its three date sets.  `scrape_date_range` reads and writes `completed_dates`
and `failed_dates` and leaves `in_progress_dates` untouched;
`check_for_new_goals` reads and writes `completed_dates` and
`in_progress_dates` and leaves `failed_dates` untouched. -/
structure Checkpoint where
  completed : Finset String
  inProgress : Finset String
  failed : Finset String
deriving DecidableEq

/-- A game entry of the schedule API for a date; `gameState` is the
lifecycle state (`FUT`, `LIVE`, `FINAL`, `OFF`, ...). -/
structure GameInfo where
  gameState : String
deriving DecidableEq

/-- Where, if anywhere, the per-date `try` block of `scrape_date_range`
raises.  `errBeforeMark` is an exception inside `scrape_nhl_goals` or
`upload_goals_with_collections`, before `completed_dates.add(date_str)`;
`errAfterMark` is an exception in the progress update or `save_progress`
call, after the date was added to `completed_dates`. -/
inductive DateOutcome where
  | ok
  | errBeforeMark
  | errAfterMark
deriving DecidableEq

/-- The external behaviour observed while `scrape_date_range` processes one
date: the date's schedule (`games`) and the outcome of the `try` block.
`scrape_date_range` never reads the `gameState` of any game — the field is
recorded here only so that properties relating checkpoint updates to game
states can be stated. -/
structure DateInput where
  games : List GameInfo
  outcome : DateOutcome
deriving DecidableEq

/-- The date filter of `scrape_date_range`: a candidate date is scraped
exactly when it is in neither `completed_dates` nor `failed_dates`.
The surrounding `while` loop that enumerates the calendar dates of the
inclusive range is abstracted into the `dates` list. -/
def dates_to_scrape (dates : List String) (completed failed : Finset String) :
    List String :=
  dates.filter (fun d => decide (d ∉ completed ∧ d ∉ failed))

/-- The effect of one iteration of the per-date loop of `scrape_date_range`
on the three date sets: on success the date joins `completed_dates`; on an
exception it joins `failed_dates` — and if the exception came after the
completion mark, it is in both.  `in_progress_dates` is never touched. -/
def scrapeDateStep (st : Checkpoint) (d : String) (inp : DateInput) : Checkpoint :=
  match inp.outcome with
  | .ok => { st with completed := insert d st.completed }
  | .errBeforeMark => { st with failed := insert d st.failed }
  | .errAfterMark =>
    { st with completed := insert d st.completed, failed := insert d st.failed }

/-- `NHLScraperCron.scrape_date_range`, projected to its effect on the
checkpoint sets.  The candidate list is filtered against the loaded
progress once, up front, and the loop then folds over the remaining
dates. -/
def scrape_date_range (dates : List String) (inputs : String → DateInput)
    (st : Checkpoint) : Checkpoint :=
  (dates_to_scrape dates st.completed st.failed).foldl
    (fun s d => scrapeDateStep s d (inputs d)) st

/-! ## On-demand checker (`scraper_on_demand.py`) -/

/-- The status dictionary returned by `are_all_games_finished`: the caller
reads `all_finished` and checks for the presence of the `error` key. -/
structure GameStatusR where
  all_finished : Bool
  total_games : Nat
  error : Option String
deriving DecidableEq

/-- The `all()` test of `are_all_games_finished`: every game's `gameState`
is in `{FINAL, OFF}`.  Both the empty-schedule early returns and an empty
`games` list yield `true`. -/
def all_finished_of (games : List GameInfo) : Bool :=
  games.all (fun g => g.gameState = "FINAL" ∨ g.gameState = "OFF")

/-- `scraper_on_demand.are_all_games_finished` as a function of the schedule
fetch: a fetch error (non-200 response, timeout, parse failure) lands in the
`except` branch, which returns `{'all_finished': False, 'error': msg}`; a
successful fetch reports whether every game is in a finished state. -/
def are_all_games_finished (fetch : Except String (List GameInfo)) : GameStatusR :=
  match fetch with
  | .error e => { all_finished := false, total_games := 0, error := some e }
  | .ok games =>
    { all_finished := all_finished_of games
      total_games := games.length
      error := none }

/-- The state threaded through a `check_for_new_goals` run: the three
checkpoint sets plus the observable counters needed by the claims —
`checked` (the `results['checked']` counter), `saves` (number of
`save_progress` calls), and `goalsScraped` (total goals returned by
`scrape_nhl_goals`). -/
structure OnDemandState where
  completed : Finset String
  inProgress : Finset String
  failed : Finset String
  checked : Nat
  saves : Nat
  goalsScraped : Nat
deriving DecidableEq

/-- The external behaviour observed while `check_for_new_goals` processes
one date: the schedule fetch made inside `are_all_games_finished`, and the
result of `scrape_nhl_goals` (number of goals found, or the exception that
the per-date `except` handler catches). -/
structure OnDemandInput where
  statusFetch : Except String (List GameInfo)
  scrape : Except String Nat

/-- One iteration of the per-date loop of `check_for_new_goals`:
skip completed dates unless `force_refresh`; count the date as checked; on a
status-lookup error record a detail and continue with nothing else changed;
on a scrape exception likewise; otherwise update the sets according to
`all_finished` (add to `completed` and discard from `in_progress`, or add to
`in_progress`), then save progress.  `failed_dates` is never touched. -/
def onDemandStep (force : Bool) (st : OnDemandState) (d : String)
    (inp : OnDemandInput) : OnDemandState :=
  if d ∈ st.completed ∧ force = false then
    st
  else
    match (are_all_games_finished inp.statusFetch).error with
    | some _ => { st with checked := st.checked + 1 }
    | none =>
      match inp.scrape with
      | .error _ => { st with checked := st.checked + 1 }
      | .ok goals =>
        if (are_all_games_finished inp.statusFetch).all_finished then
          { st with
              checked := st.checked + 1
              goalsScraped := st.goalsScraped + goals
              completed := insert d st.completed
              inProgress := st.inProgress.erase d
              saves := st.saves + 1 }
        else
          { st with
              checked := st.checked + 1
              goalsScraped := st.goalsScraped + goals
              inProgress := insert d st.inProgress
              saves := st.saves + 1 }

/-- `scraper_on_demand.check_for_new_goals`, projected to its effect on the
checkpoint sets and counters: a fold of `onDemandStep` over the dates
returned by `get_recent_dates`. -/
def check_for_new_goals (force : Bool) (dates : List String)
    (inputs : String → OnDemandInput) (st : OnDemandState) : OnDemandState :=
  dates.foldl (fun s d => onDemandStep force s d (inputs d)) st

/-! ## Concrete fixtures used by witnesses and counterexamples -/

/-- A two-team game record: home team `H` (id 1), away team `A` (id 2). -/
def exGame : Game :=
  { id := 700
    homeTeam := { id := 1, abbr := "H" }
    awayTeam := { id := 2, abbr := "A" } }

/-- Goals of a game that ends 1-1: the away team takes the lead (0-1), then
the home team ties (1-1). -/
def tieAwayLedGoals : List Play :=
  [ { eventId := 1, details := { homeScore := 0, awayScore := 1, eventOwnerTeamId := 2 } },
    { eventId := 2, details := { homeScore := 1, awayScore := 1, eventOwnerTeamId := 1 } } ]

/-- Goals of a game that ends 1-1: the home team leads (1-0), then the away
team ties (1-1) — the away team never takes the lead. -/
def tieHomeLedGoals : List Play :=
  [ { eventId := 1, details := { homeScore := 1, awayScore := 0, eventOwnerTeamId := 1 } },
    { eventId := 2, details := { homeScore := 1, awayScore := 1, eventOwnerTeamId := 2 } } ]

/-- Goals of a game the home team wins 2-0: a lead-taking goal followed by a
piling-on goal. -/
def homeWinGoals : List Play :=
  [ { eventId := 1, details := { homeScore := 1, awayScore := 0, eventOwnerTeamId := 1 } },
    { eventId := 2, details := { homeScore := 2, awayScore := 0, eventOwnerTeamId := 1 } } ]

/-- A home goal making it 2-0 in the first period with 0 seconds remaining
("00:00") on the clock. -/
def zeroSecCtx : ImportanceContext :=
  { isGameWinner := false
    period := 1
    periodType := some "REG"
    goalModifier := none
    strength := some "even"
    timeRemaining := some "00:00"
    homeScore := 2
    awayScore := 0
    prevHomeScore := 1
    prevAwayScore := 0
    scoringTeam := some "H"
    homeTeam := some "H" }

/-- The same goal context but with 40 seconds ("00:40") remaining in the
period. -/
def lateCtx : ImportanceContext :=
  { zeroSecCtx with timeRemaining := some "00:40" }

/-- A schedule game that has not started yet. -/
def futGame : GameInfo := { gameState := "FUT" }

/-- A `scrape_date_range` per-date observation: the date's only game is in
state `FUT` and the whole per-date `try` block succeeds. -/
def futOkInput : DateInput := { games := [futGame], outcome := .ok }

/-- A `check_for_new_goals` per-date observation: the schedule fetch
succeeds, the only game is in state `FUT`, and `scrape_nhl_goals` succeeds
with zero goals. -/
def futOnDemandInput : OnDemandInput :=
  { statusFetch := .ok [futGame], scrape := .ok 0 }

/-- A `check_for_new_goals` per-date observation whose game-status lookup
fails. -/
def statusErrInput : OnDemandInput :=
  { statusFetch := .error "Schedule API returned 500", scrape := .ok 0 }

/-- A zeroed play, used only as the (unreachable) `getLastD` default when
stating facts about the last element of a non-empty goal list. -/
def defaultPlay : Play :=
  { eventId := 0, details := { homeScore := 0, awayScore := 0, eventOwnerTeamId := 0 } }

/-- An empty checkpoint. -/
def emptyCk : Checkpoint := { completed := ∅, inProgress := ∅, failed := ∅ }

/-- A checkpoint whose only entry is `2024-01-01`, sitting in
`in_progress_dates` (for instance after an earlier on-demand run saw its
games still live). -/
def inProgressCk : Checkpoint :=
  { completed := ∅, inProgress := {"2024-01-01"}, failed := ∅ }

/-- A checkpoint with `2024-01-01` in `failed_dates`. -/
def failedCk : Checkpoint :=
  { completed := ∅, inProgress := ∅, failed := {"2024-01-01"} }

/-- An empty on-demand run state. -/
def emptyOD : OnDemandState :=
  { completed := ∅, inProgress := ∅, failed := ∅
    checked := 0, saves := 0, goalsScraped := 0 }

/-- An on-demand run state with `2024-01-01` already completed. -/
def completedOD : OnDemandState :=
  { emptyOD with completed := {"2024-01-01"} }

/-! ## Helper lemmas -/

/-- A bonus term of the importance sum is non-negative. -/
theorem bonus_ite_nonneg (P : Prop) [Decidable P] (a : Int) (ha : 0 ≤ a) :
    0 ≤ if P then a else 0 := by
  split
  · exact ha
  · exact le_refl 0

/-- The additive accumulator of the importance score is at least 1: it
starts at 1 and every summand is non-negative. -/
theorem importanceRaw_ge_one (c : ImportanceContext) (secs : Int) :
    1 ≤ importanceRaw c secs := by
  unfold importanceRaw
  have h1 : (0:Int) ≤ if c.isGameWinner = true then 10 else 0 :=
    bonus_ite_nonneg _ _ (by norm_num)
  have h2 : (0:Int) ≤ if prevScoringTeamScore c < prevOpponentScore c ∧
      scoringTeamScore c = opponentScore c then 7 else 0 :=
    bonus_ite_nonneg _ _ (by norm_num)
  have h3 : (0:Int) ≤ if prevScoringTeamScore c ≤ prevOpponentScore c ∧
      scoringTeamScore c > opponentScore c then 6 else 0 :=
    bonus_ite_nonneg _ _ (by norm_num)
  have h4 : (0:Int) ≤ if c.period ≥ 3 ∧ prevScoringTeamScore c - prevOpponentScore c = 1 ∧
      scoringTeamScore c - opponentScore c ≥ 2 then 2 else 0 :=
    bonus_ite_nonneg _ _ (by norm_num)
  have h5 : (0:Int) ≤ if |scoringTeamScore c - opponentScore c| ≤ 1 then 2 else 0 :=
    bonus_ite_nonneg _ _ (by norm_num)
  have h6 : (0:Int) ≤ if secs > 0 ∧ secs ≤ 120 then 3 else 0 :=
    bonus_ite_nonneg _ _ (by norm_num)
  have h7 : (0:Int) ≤ if secs > 0 ∧ secs ≤ 30 then 2 else 0 :=
    bonus_ite_nonneg _ _ (by norm_num)
  have h8 : (0:Int) ≤ if c.period = 3 ∧ c.isGameWinner = false then 1 else 0 :=
    bonus_ite_nonneg _ _ (by norm_num)
  have h9 : (0:Int) ≤ if c.period > 3 ∨ c.periodType = some "OT" then 5 else 0 :=
    bonus_ite_nonneg _ _ (by norm_num)
  have h10 : (0:Int) ≤ if c.periodType = some "SO" then 3 else 0 :=
    bonus_ite_nonneg _ _ (by norm_num)
  have h11 : (0:Int) ≤ if c.strength = some "powerplay" ∨
      c.goalModifier = some "power-play" then 1 else 0 :=
    bonus_ite_nonneg _ _ (by norm_num)
  have h12 : (0:Int) ≤ if c.strength = some "shorthanded" ∨
      c.goalModifier = some "short-handed" then 4 else 0 :=
    bonus_ite_nonneg _ _ (by norm_num)
  have h13 : (0:Int) ≤ if c.goalModifier = some "penalty-shot" then 3 else 0 :=
    bonus_ite_nonneg _ _ (by norm_num)
  linarith

/-! ## Claim theorems -/

/-- C5: for every importance context on which `calculate_goal_importance`
returns a value (that is, `parse_time` does not raise), the returned
importance score is at least 1. -/
theorem C5_importance_floor (c : ImportanceContext) (r : Int)
    (h : calculate_goal_importance c = some r) : 1 ≤ r := by
  unfold calculate_goal_importance at h
  cases hp : parse_time c.timeRemaining with
  | none => rw [hp] at h; simp at h
  | some secs =>
    rw [hp] at h
    simp only [Option.map_some', Option.some.injEq] at h
    subst h
    have hraw := importanceRaw_ge_one c secs
    have hfg : (0:Int) ≤ if (c.homeScore = 1 ∧ c.awayScore = 0) ∨
        (c.homeScore = 0 ∧ c.awayScore = 1) then 1 else 0 :=
      bonus_ite_nonneg _ _ (by norm_num)
    by_cases he : c.goalModifier = some "empty-net"
    · rw [if_pos he]
      have := le_max_right (importanceRaw c secs - 1) (1:Int)
      linarith
    · rw [if_neg he]
      linarith

/-- C5 witness: a concrete context (a 2-0 home goal with 40 seconds left in
the first period) evaluates to 4, and the floor theorem applies to it. -/
theorem C5_witness : calculate_goal_importance lateCtx = some 4 ∧ (1:Int) ≤ 4 :=
  ⟨by decide, C5_importance_floor lateCtx 4 (by decide)⟩

/-- C4 (amended): when the parsed time remaining is positive and at most 120
seconds, the importance accumulator equals the value without the late-period
signals plus 3, plus a further 2 when it is also at most 30 seconds.  The
positivity hypothesis is required by the source (`seconds_remaining > 0`);
the original claim's inclusion of exactly 0 seconds is refuted by
`C4_counterexample`. -/
theorem C4_late_period_bonus (c : ImportanceContext) (secs : Int)
    (h0 : 0 < secs) (h120 : secs ≤ 120) :
    importanceRaw c secs =
      importanceRawNoLate c + 3 + (if secs ≤ 30 then 2 else 0) := by
  unfold importanceRaw importanceRawNoLate
  rw [if_pos (⟨h0, h120⟩ : secs > 0 ∧ secs ≤ 120)]
  by_cases h30 : secs ≤ 30
  · rw [if_pos (⟨h0, h30⟩ : secs > 0 ∧ secs ≤ 30), if_pos h30]
    ring
  · rw [if_neg (fun hh : secs > 0 ∧ secs ≤ 30 => h30 hh.2), if_neg h30]
    ring

/-- C4 counterexample: a context with exactly 0 seconds remaining
("00:00") receives neither late-period bonus — the accumulator equals the
bonus-free value, not that value plus 3 (+2), refuting the claim that the
bonuses apply to every context with at most 120 (30) seconds remaining. -/
theorem C4_counterexample :
    parse_time zeroSecCtx.timeRemaining = some 0 ∧
    (0:Int) ≤ 120 ∧ (0:Int) ≤ 30 ∧
    importanceRaw zeroSecCtx 0 = 1 ∧
    importanceRawNoLate zeroSecCtx = 1 ∧
    importanceRaw zeroSecCtx 0 ≠ importanceRawNoLate zeroSecCtx + 3 + 2 := by
  decide

/-- C4 witness: the amended late-period bonus theorem applied at 40 seconds
remaining. -/
theorem C4_witness :
    importanceRaw lateCtx 40 =
      importanceRawNoLate lateCtx + 3 + (if (40:Int) ≤ 30 then 2 else 0) :=
  C4_late_period_bonus lateCtx 40 (by norm_num) (by norm_num)

/-- The `last_lead_change_goal` slot of the fold is only ever (re)assigned
to the id of a processed goal that was scored by the winning team and took
the lead. -/
theorem gw_foldl_winner (game : Game) (w : String) :
    ∀ (l : List Play) (acc : Option String × List String) (x : String),
      (l.foldl (gwStep game w) acc).1 = some x →
      acc.1 = some x ∨
        ∃ p ∈ l, scoringTeamAbbrev game p.details = w ∧
          tookLead game p.details = true ∧ x = goalId game p := by
  intro l
  induction l with
  | nil => intro acc x h; exact Or.inl h
  | cons p l ih =>
    intro acc x h
    rw [List.foldl_cons] at h
    rcases ih (gwStep game w acc p) x h with h1 | ⟨q, hq, hsc, htl, hx⟩
    · unfold gwStep at h1
      by_cases hs : scoringTeamAbbrev game p.details = w
      · rw [if_pos hs] at h1
        by_cases ht : tookLead game p.details = true
        · rw [if_pos ht] at h1
          simp only [Option.some.injEq] at h1
          exact Or.inr ⟨p, List.mem_cons_self p l, hs, ht, h1.symm⟩
        · rw [if_neg ht] at h1
          by_cases hsome : (acc.1).isSome = true
          · rw [if_pos hsome] at h1
            by_cases ha : wasAlreadyAhead game p.details = true
            · rw [if_pos ha] at h1
              exact Or.inl h1
            · rw [if_neg ha] at h1
              exact Or.inl h1
          · rw [if_neg hsome] at h1
            exact Or.inl h1
      · rw [if_neg hs] at h1
        exact Or.inl h1
    · exact Or.inr ⟨q, List.mem_cons_of_mem p hq, hsc, htl, hx⟩

/-- A piling-on id recorded by the fold always comes from a processed goal
that was scored by the winning team and did not take the lead. -/
theorem gw_foldl_pile (game : Game) (w : String) :
    ∀ (l : List Play) (acc : Option String × List String) (x : String),
      x ∈ (l.foldl (gwStep game w) acc).2 →
      x ∈ acc.2 ∨
        ∃ p ∈ l, scoringTeamAbbrev game p.details = w ∧
          tookLead game p.details = false ∧ x = goalId game p := by
  intro l
  induction l with
  | nil => intro acc x h; exact Or.inl h
  | cons p l ih =>
    intro acc x h
    rw [List.foldl_cons] at h
    rcases ih (gwStep game w acc p) x h with h1 | ⟨q, hq, hsc, htl, hx⟩
    · unfold gwStep at h1
      by_cases hs : scoringTeamAbbrev game p.details = w
      · rw [if_pos hs] at h1
        by_cases ht : tookLead game p.details = true
        · rw [if_pos ht] at h1
          exact Or.inl h1
        · rw [if_neg ht] at h1
          by_cases hsome : (acc.1).isSome = true
          · rw [if_pos hsome] at h1
            by_cases ha : wasAlreadyAhead game p.details = true
            · rw [if_pos ha] at h1
              rcases List.mem_append.mp h1 with hin | hnew
              · exact Or.inl hin
              · refine Or.inr ⟨p, List.mem_cons_self p l, hs, ?_, ?_⟩
                · exact Bool.not_eq_true _ ▸ (eq_false_of_ne_true ht)
                · exact List.mem_singleton.mp hnew
            · rw [if_neg ha] at h1
              exact Or.inl h1
          · rw [if_neg hsome] at h1
            exact Or.inl h1
      · rw [if_neg hs] at h1
        exact Or.inl h1
    · exact Or.inr ⟨q, List.mem_cons_of_mem p hq, hsc, htl, hx⟩

/-- C6: when the composite goal ids of a game's goals are distinct (the
spec's idempotency-key invariant), the goal id returned as game-winner is
never also in the piling-on set, so no goal is marked both `is_game_winner`
and `is_piling_on` by `convert_goal_to_collection_and_activity`. -/
theorem C6_winner_not_piling_on (goals : List Play) (game : Game)
    (hnodup : (goals.map (goalId game)).Nodup) (w : String)
    (hw : (calculate_game_winner goals game).1 = some w) :
    w ∉ (calculate_game_winner goals game).2 := by
  intro hmem
  cases goals with
  | nil => simp [calculate_game_winner] at hw
  | cons g gs =>
    simp only [calculate_game_winner] at hw hmem
    rcases gw_foldl_winner game _ (g :: gs) (none, []) w hw with habs | ⟨p, hp, _, htp, hxp⟩
    · exact Option.noConfusion habs
    · rcases gw_foldl_pile game _ (g :: gs) (none, []) w hmem with habs | ⟨q, hq, _, htq, hxq⟩
      · exact List.not_mem_nil w habs
      · have hpq : p = q :=
          List.inj_on_of_nodup_map hnodup hp hq (hxp ▸ hxq)
        rw [hpq, htq] at htp
        exact Bool.false_ne_true htp

/-- C6 witness: in a concrete 2-0 home win the first goal is the winner, the
second is piling-on, and they are distinct. -/
theorem C6_witness :
    (homeWinGoals.map (goalId exGame)).Nodup ∧
    (calculate_game_winner homeWinGoals exGame).1 = some "700_1" ∧
    "700_1" ∉ (calculate_game_winner homeWinGoals exGame).2 :=
  ⟨by decide, by decide,
    C6_winner_not_piling_on homeWinGoals exGame (by decide) "700_1" (by decide)⟩

/-- C1 (amended): when the final score taken from the last goal is a tie,
`calculate_game_winner` treats the away team as the winning team; it
returns no winner when the away team never scored a lead-taking goal.  (The
original claim — no winner on every tie — is refuted by
`C1_counterexample`.) -/
theorem C1_tie_no_away_lead_no_winner (game : Game) (g : Play) (gs : List Play)
    (htie : ((g :: gs).getLast (List.cons_ne_nil g gs)).details.homeScore =
            ((g :: gs).getLast (List.cons_ne_nil g gs)).details.awayScore)
    (hnl : ∀ p ∈ g :: gs,
      scoringTeamAbbrev game p.details = game.awayTeam.abbr →
      tookLead game p.details = false) :
    (calculate_game_winner (g :: gs) game).1 = none := by
  simp only [calculate_game_winner]
  rw [if_neg (by rw [htie]; exact lt_irrefl _)]
  cases hx : (List.foldl (gwStep game game.awayTeam.abbr) (none, []) (g :: gs)).1 with
  | none => rfl
  | some x =>
    rcases gw_foldl_winner game _ (g :: gs) (none, []) x hx with habs | ⟨p, hp, hsp, htp, _⟩
    · exact Option.noConfusion habs
    · rw [hnl p hp hsp] at htp
      exact absurd htp (Bool.false_ne_true)

/-- C1 witness: a concrete 1-1 game in which the away team never led yields
no winner. -/
theorem C1_witness :
    (calculate_game_winner tieHomeLedGoals exGame).1 = none := by
  have h := C1_tie_no_away_lead_no_winner exGame
    { eventId := 1, details := { homeScore := 1, awayScore := 0, eventOwnerTeamId := 1 } }
    [ { eventId := 2, details := { homeScore := 1, awayScore := 1, eventOwnerTeamId := 2 } } ]
    (by decide) (by decide)
  exact h

/-- C1 counterexample: a game that ends 1-1 in which the away team briefly
led.  The final score is tied, yet `calculate_game_winner` returns the away
team's lead-taking goal as game-winner instead of no winner. -/
theorem C1_counterexample :
    (tieAwayLedGoals.getLastD defaultPlay).details.homeScore =
      (tieAwayLedGoals.getLastD defaultPlay).details.awayScore ∧
    (calculate_game_winner tieAwayLedGoals exGame).1 = some "700_1" := by
  decide

/-- C7: a publish exception whose message contains `duplicate`
(case-insensitively) leaves the upload statistics exactly as if that goal
had not been in the list at all: `failed` is not incremented and the
remaining goals are still processed. -/
theorem C7_duplicate_not_failed (xs ys : List PublishOutcome) (msg : String)
    (h : isDuplicateMsg msg = true) :
    upload_goals_with_collections (xs ++ PublishOutcome.err msg :: ys) =
      upload_goals_with_collections (xs ++ ys) := by
  unfold upload_goals_with_collections
  rw [List.foldl_append, List.foldl_append, List.foldl_cons]
  congr 1
  simp [uploadStep, h]

/-- C7 witness: a duplicate failure between two successful publishes yields
the same statistics as the two successes alone. -/
theorem C7_witness :
    isDuplicateMsg "Duplicate foreign_id detected" = true ∧
    upload_goals_with_collections
        [.ok, .err "Duplicate foreign_id detected", .ok] =
      upload_goals_with_collections [.ok, .ok] :=
  ⟨by decide,
    C7_duplicate_not_failed [.ok] [.ok] "Duplicate foreign_id detected" (by decide)⟩

/-- C2 (amended): in the recent-days check, a processed date whose games
are not all finished is added to `in_progress_dates` and `completed_dates`
is left unchanged.  (The original claim also asserted this of
`scrape_date_range`, which is refuted by `C2_counterexample`.) -/
theorem C2_on_demand_unfinished_in_progress (force : Bool) (st : OnDemandState)
    (d : String) (inp : OnDemandInput) (games : List GameInfo) (n : Nat)
    (hskip : ¬(d ∈ st.completed ∧ force = false))
    (hfetch : inp.statusFetch = Except.ok games)
    (hfin : all_finished_of games = false)
    (hscrape : inp.scrape = Except.ok n) :
    d ∈ (onDemandStep force st d inp).inProgress ∧
    (onDemandStep force st d inp).completed = st.completed := by
  unfold onDemandStep
  rw [if_neg hskip, hfetch, hscrape]
  simp only [are_all_games_finished, hfin]
  exact ⟨Finset.mem_insert_self d _, rfl⟩

/-- C2 witness: the amended theorem applied to a date whose only game is in
state `FUT`. -/
theorem C2_witness :
    "2024-01-01" ∈ (onDemandStep false emptyOD "2024-01-01" futOnDemandInput).inProgress ∧
    (onDemandStep false emptyOD "2024-01-01" futOnDemandInput).completed = emptyOD.completed :=
  C2_on_demand_unfinished_in_progress false emptyOD "2024-01-01" futOnDemandInput
    [futGame] 0 (by decide) rfl (by decide) rfl

/-- C2 counterexample: `scrape_date_range` never consults game states — a
date whose only game is in state `FUT` and whose scrape succeeds is put
into `completed_dates` and never into `in_progress_dates`. -/
theorem C2_counterexample :
    all_finished_of futOkInput.games = false ∧
    (scrape_date_range ["2024-01-01"] (fun _ => futOkInput) emptyCk).completed =
      {"2024-01-01"} ∧
    (scrape_date_range ["2024-01-01"] (fun _ => futOkInput) emptyCk).inProgress = ∅ := by
  decide

/-- Inserting `d` on the left while erasing it on the right preserves
disjointness. -/
theorem disjoint_insert_erase {s t : Finset String} (d : String)
    (h : Disjoint s t) : Disjoint (insert d s) (t.erase d) := by
  rw [Finset.disjoint_left] at h ⊢
  intro a ha hb
  rcases Finset.mem_insert.mp ha with rfl | ha'
  · exact (Finset.mem_erase.mp hb).1 rfl
  · exact h ha' (Finset.mem_of_mem_erase hb)

/-- Inserting an element absent from the left set into the right set
preserves disjointness. -/
theorem disjoint_insert_right_of {s t : Finset String} (d : String)
    (h : Disjoint s t) (hd : d ∉ s) : Disjoint s (insert d t) := by
  rw [Finset.disjoint_left] at h ⊢
  intro a ha hb
  rcases Finset.mem_insert.mp hb with rfl | hb'
  · exact hd ha
  · exact h ha hb'

/-- One on-demand iteration with `force_refresh = false` keeps
`completed_dates` and `in_progress_dates` disjoint. -/
theorem onDemandStep_disjoint (st : OnDemandState) (d : String)
    (inp : OnDemandInput) (h : Disjoint st.completed st.inProgress) :
    Disjoint (onDemandStep false st d inp).completed
      (onDemandStep false st d inp).inProgress := by
  unfold onDemandStep
  by_cases hc : d ∈ st.completed ∧ (false : Bool) = false
  · rw [if_pos hc]
    exact h
  · rw [if_neg hc]
    have hd : d ∉ st.completed := fun hmem => hc ⟨hmem, rfl⟩
    cases hae : (are_all_games_finished inp.statusFetch).error with
    | some e => exact h
    | none =>
      cases hs : inp.scrape with
      | error e => exact h
      | ok n =>
        dsimp only
        by_cases hf : (are_all_games_finished inp.statusFetch).all_finished = true
        · rw [if_pos hf]
          exact disjoint_insert_erase d h
        · rw [if_neg hf]
          exact disjoint_insert_right_of d h hd

/-- C3 (amended): across a whole `check_for_new_goals` run with
`force_refresh = false`, disjointness of `completed_dates` and
`in_progress_dates` is preserved.  (The original three-set invariant is
refuted by `C3_counterexample`: `scrape_date_range` never removes a date
from `in_progress_dates`.) -/
theorem C3_on_demand_disjoint_preserved (dates : List String)
    (inputs : String → OnDemandInput) (st : OnDemandState)
    (h : Disjoint st.completed st.inProgress) :
    Disjoint (check_for_new_goals false dates inputs st).completed
      (check_for_new_goals false dates inputs st).inProgress := by
  induction dates generalizing st with
  | nil => exact h
  | cons d ds ih =>
    simp only [check_for_new_goals, List.foldl_cons] at *
    exact ih _ (onDemandStep_disjoint st d (inputs d) h)

/-- C3 witness: the amended preservation theorem applied to a concrete
disjoint state and a two-date run. -/
theorem C3_witness :
    Disjoint
      (check_for_new_goals false ["2024-01-01", "2024-01-02"]
        (fun _ => futOnDemandInput) emptyOD).completed
      (check_for_new_goals false ["2024-01-01", "2024-01-02"]
        (fun _ => futOnDemandInput) emptyOD).inProgress :=
  C3_on_demand_disjoint_preserved ["2024-01-01", "2024-01-02"]
    (fun _ => futOnDemandInput) emptyOD (Finset.disjoint_left.mpr (by decide))

/-- C3 counterexample: starting from a checkpoint whose only entry is
`2024-01-01` in `in_progress_dates` (pairwise disjoint sets), a successful
`scrape_date_range` run over that date leaves it in both `completed_dates`
and `in_progress_dates` — a date in two of the three sets. -/
theorem C3_counterexample :
    "2024-01-01" ∈ (scrape_date_range ["2024-01-01"] (fun _ => futOkInput) inProgressCk).completed ∧
    "2024-01-01" ∈ (scrape_date_range ["2024-01-01"] (fun _ => futOkInput) inProgressCk).inProgress := by
  decide

/-- C8 (amended): `check_for_new_goals` leaves a completed date fully
untouched when `force_refresh` is false and re-processes it (the per-date
body runs, counting the date as checked) when `force_refresh` is true;
`scrape_date_range`, by contrast, unconditionally excludes every date
already in `completed_dates` from the dates to process — it has no
force-refresh mode.  (The original claim's assertion that a
`force_refresh = true` run re-processes completed dates in the date-range
entry point is refuted by `C8_counterexample`.) -/
theorem C8_skip_completed :
    (∀ (st : OnDemandState) (d : String) (inp : OnDemandInput),
      d ∈ st.completed → onDemandStep false st d inp = st) ∧
    (∀ (st : OnDemandState) (d : String) (inp : OnDemandInput),
      (onDemandStep true st d inp).checked = st.checked + 1) ∧
    (∀ (dates : List String) (completed failed : Finset String) (d : String),
      d ∈ completed → d ∉ dates_to_scrape dates completed failed) := by
  refine ⟨?_, ?_, ?_⟩
  · intro st d inp h
    unfold onDemandStep
    rw [if_pos ⟨h, rfl⟩]
  · intro st d inp
    unfold onDemandStep
    rw [if_neg (fun hc => Bool.noConfusion hc.2)]
    cases hae : (are_all_games_finished inp.statusFetch).error with
    | some e => rfl
    | none =>
      cases hs : inp.scrape with
      | error e => rfl
      | ok n =>
        dsimp only
        by_cases hf : (are_all_games_finished inp.statusFetch).all_finished = true
        · rw [if_pos hf]
        · rw [if_neg hf]
  · intro dates completed failed d h hmem
    rcases List.mem_filter.mp hmem with ⟨-, hcond⟩
    exact (of_decide_eq_true hcond).1 h

/-- C8 witness: the three parts applied at a date already completed. -/
theorem C8_witness :
    onDemandStep false completedOD "2024-01-01" futOnDemandInput = completedOD ∧
    (onDemandStep true completedOD "2024-01-01" futOnDemandInput).checked =
      completedOD.checked + 1 ∧
    "2024-01-01" ∉ dates_to_scrape ["2024-01-01"] {"2024-01-01"} ∅ :=
  ⟨C8_skip_completed.1 completedOD "2024-01-01" futOnDemandInput (by decide),
    C8_skip_completed.2.1 completedOD "2024-01-01" futOnDemandInput,
    C8_skip_completed.2.2 ["2024-01-01"] {"2024-01-01"} ∅ "2024-01-01" (by decide)⟩

/-- C8 counterexample: with `2024-01-01` already completed, a
`scrape_date_range` run over exactly that date selects no dates and leaves
the checkpoint unchanged — there is no input under which it re-processes a
completed date, so no `force_refresh = true` behaviour exists for this
entry point. -/
theorem C8_counterexample :
    dates_to_scrape ["2024-01-01"] {"2024-01-01"} ∅ = [] ∧
    scrape_date_range ["2024-01-01"] (fun _ => futOkInput)
        { completed := {"2024-01-01"}, inProgress := ∅, failed := ∅ } =
      { completed := {"2024-01-01"}, inProgress := ∅, failed := ∅ } := by
  decide

/-- One `scrape_date_range` iteration never removes anything from
`failed_dates`. -/
theorem scrapeDateStep_failed_mono (st : Checkpoint) (d e : String)
    (inp : DateInput) (h : e ∈ st.failed) :
    e ∈ (scrapeDateStep st d inp).failed := by
  unfold scrapeDateStep
  split
  · exact h
  · exact Finset.mem_insert_of_mem h
  · exact Finset.mem_insert_of_mem h

/-- A whole `scrape_date_range` fold never removes anything from
`failed_dates`. -/
theorem scrape_foldl_failed_mono (inputs : String → DateInput) :
    ∀ (l : List String) (st : Checkpoint) (e : String), e ∈ st.failed →
      e ∈ (l.foldl (fun s d => scrapeDateStep s d (inputs d)) st).failed := by
  intro l
  induction l with
  | nil => intro st e h; exact h
  | cons d ds ih =>
    intro st e h
    rw [List.foldl_cons]
    exact ih _ e (scrapeDateStep_failed_mono st d e (inputs d) h)

/-- C9: a date in `failed_dates` of the loaded progress is excluded from
the dates `scrape_date_range` processes, and it is still in `failed_dates`
after the run — so without external modification of the progress record it
is never retried. -/
theorem C9_failed_never_retried (dates : List String)
    (inputs : String → DateInput) (st : Checkpoint) (d : String)
    (h : d ∈ st.failed) :
    d ∉ dates_to_scrape dates st.completed st.failed ∧
    d ∈ (scrape_date_range dates inputs st).failed := by
  constructor
  · intro hmem
    rcases List.mem_filter.mp hmem with ⟨-, hcond⟩
    exact (of_decide_eq_true hcond).2 h
  · exact scrape_foldl_failed_mono inputs _ st d h

/-- C9 witness: the theorem applied to a checkpoint with `2024-01-01`
failed. -/
theorem C9_witness :
    "2024-01-01" ∉ dates_to_scrape ["2024-01-01"] failedCk.completed failedCk.failed ∧
    "2024-01-01" ∈ (scrape_date_range ["2024-01-01"] (fun _ => futOkInput) failedCk).failed :=
  C9_failed_never_retried ["2024-01-01"] (fun _ => futOkInput) failedCk
    "2024-01-01" (by decide)

/-- C10: when the game-status lookup for a date fails, the on-demand
iteration changes none of the three checkpoint sets, performs no progress
save, and scrapes no goals; only the `checked` counter and the details list
reflect the attempt, and the run continues with the next date. -/
theorem C10_status_error_no_change (force : Bool) (st : OnDemandState)
    (d : String) (inp : OnDemandInput) (e : String)
    (h : inp.statusFetch = Except.error e) :
    (onDemandStep force st d inp).completed = st.completed ∧
    (onDemandStep force st d inp).inProgress = st.inProgress ∧
    (onDemandStep force st d inp).failed = st.failed ∧
    (onDemandStep force st d inp).saves = st.saves ∧
    (onDemandStep force st d inp).goalsScraped = st.goalsScraped := by
  unfold onDemandStep
  by_cases hc : d ∈ st.completed ∧ force = false
  · rw [if_pos hc]
    exact ⟨rfl, rfl, rfl, rfl, rfl⟩
  · rw [if_neg hc, h]
    exact ⟨rfl, rfl, rfl, rfl, rfl⟩

/-- C10 witness: the theorem applied to a date whose schedule fetch returns
an error. -/
theorem C10_witness :
    (onDemandStep false emptyOD "2024-01-01" statusErrInput).completed = emptyOD.completed ∧
    (onDemandStep false emptyOD "2024-01-01" statusErrInput).inProgress = emptyOD.inProgress ∧
    (onDemandStep false emptyOD "2024-01-01" statusErrInput).failed = emptyOD.failed ∧
    (onDemandStep false emptyOD "2024-01-01" statusErrInput).saves = emptyOD.saves ∧
    (onDemandStep false emptyOD "2024-01-01" statusErrInput).goalsScraped = emptyOD.goalsScraped :=
  C10_status_error_no_change false emptyOD "2024-01-01" statusErrInput
    "Schedule API returned 500" rfl

end StreamBackend
